import Mathlib

/-!
A verification development for the IecSerial driver (iecserial.h /
iecserial.cpp), the controller side of a Commodore IEC serial bus
interface.

The driver is embedded shallowly as a state machine.  The state `St`
carries the C++ member `m_status`, a trace of the observable line and
timing operations the driver performs (`events`), and an oracle that
decides, for each bounded busy-wait in program order, whether that wait
times out (`true`) or sees the expected line transition (`false`).  The
unbounded waits always complete (the protocol guarantees the partner's
response there), recording only a trace event.

Each C++ method is translated one-to-one: `Assert`/`Release` append a
line event, `delayMicroseconds` a delay event, the bounded waits consume
one oracle entry and set `m_status = STATUS_TIMEOUT` on timeout exactly
as the source does.  `SendBits` replays the 8-iteration bit loop and, in
addition to the per-bit line events, appends a `byteTx` marker recording
the byte handed to the bit engine; `sentBytes` extracts the transmitted
bytes from a trace.  The bit-level round trip is checked by sampling the
Data line of the `SendBits` trace at each Clock-release edge (the bus's
sample point) and feeding the samples to the `GetBits` accumulator.
-/

namespace Iec

/-- The five IEC bus lines driven by the interface (pin bit masks over
PORTD in the source). -/
inductive Line
  | srq | atn | clk | dio | rst
deriving DecidableEq, Repr

/-- Observable operations of the driver, in program order.  `waitA` and
`waitR` are the bounded waits (`WaitAssertionOrTimeout`,
`WaitReleaseOrTimeout`) with their recorded outcome; `waitAssert` and
`waitRelease` are the unbounded ones; `byteTx` marks a byte handed to
the bit-transmission engine `SendBits`. -/
inductive Ev
  | assert (ls : List Line)
  | release (ls : List Line)
  | delayUs (t : Nat)
  | waitA (ls : List Line) (t : Nat) (timedOut : Bool)
  | waitR (ls : List Line) (t : Nat) (timedOut : Bool)
  | waitAssert (ls : List Line)
  | waitRelease (ls : List Line)
  | byteTx (d : Nat)
deriving DecidableEq, Repr

/-- Machine state: `m_status`, the event trace so far, and the oracle of
outcomes for the bounded waits still to come (`true` = timeout). -/
structure St where
  status : Nat
  events : List Ev
  oracle : List Bool
deriving DecidableEq, Repr

/-- Initial state with a given wait-outcome oracle and prior status. -/
def mkSt (oracle : List Bool) (st : Nat) : St :=
  { status := st, events := [], oracle := oracle }

-- Status codes (iecserial.h)
def STATUS_OK : Nat := 0
def STATUS_TIMEOUT : Nat := 1
def STATUS_FRAMMING_ERROR : Nat := 4
def STATUS_NO_DEVICE : Nat := 128

-- Command opcodes (iecserial.h)
def CMD_LISTEN : Nat := 0x20
def CMD_TALK : Nat := 0x40
def CMD_UNTALK : Nat := 0x5F
def CMD_UNLISTEN : Nat := 0x3F
def CMD_SECONDARY : Nat := 0x60

-- IEC serial bus timings in microseconds (iecserial.h)
def TIME_TAT : Nat := 1000
def TIME_TNE : Nat := 40
def TIME_TS : Nat := 70
def TIME_TV : Nat := 20
def TIME_TF : Nat := 1000
def TIME_TR : Nat := 20
def TIME_TBB : Nat := 100
def TIME_TYE : Nat := 250
def TIME_TEI : Nat := 500
def TIME_TRY : Nat := 30
def TIME_TTK : Nat := 30
def TIME_TDC : Nat := 30
def TIME_TDA : Nat := 100

/-- `isOk()`: true iff `m_status == STATUS_OK`. -/
def isOk (s : St) : Bool := s.status == STATUS_OK

/-- `Assert(pins)`: drive the given lines low. -/
def Assert (ls : List Line) (s : St) : St :=
  { s with events := s.events ++ [Ev.assert ls] }

/-- `Release(pins)`: switch the given lines to input / pulled-up high. -/
def Release (ls : List Line) (s : St) : St :=
  { s with events := s.events ++ [Ev.release ls] }

/-- The mask `srqBit|rstBit|clkBit|dioBit|atnBit` used by `ReleaseAll`. -/
def allLines : List Line := [Line.srq, Line.rst, Line.clk, Line.dio, Line.atn]

/-- `ReleaseAll()`: release every managed line. -/
def ReleaseAll (s : St) : St :=
  Release allLines s

/-- `delayMicroseconds(t)` (Arduino busy delay). -/
def delayMicroseconds (t : Nat) (s : St) : St :=
  { s with events := s.events ++ [Ev.delayUs t] }

/-- `WaitAssertionOrTimeout(pins, timeout)`: bounded busy-poll for line
assertion.  The oracle decides the outcome; on timeout the source sets
`m_status = STATUS_TIMEOUT` and returns `true`. -/
def WaitAssertionOrTimeout (ls : List Line) (t : Nat) (s : St) : Bool × St :=
  let timedOut := s.oracle.headD false
  let s1 : St := { s with oracle := s.oracle.tail,
                          events := s.events ++ [Ev.waitA ls t timedOut] }
  if timedOut then (true, { s1 with status := STATUS_TIMEOUT }) else (false, s1)

/-- `WaitReleaseOrTimeout(pins, timeout)`: bounded busy-poll for line
release, mirror of `WaitAssertionOrTimeout`. -/
def WaitReleaseOrTimeout (ls : List Line) (t : Nat) (s : St) : Bool × St :=
  let timedOut := s.oracle.headD false
  let s1 : St := { s with oracle := s.oracle.tail,
                          events := s.events ++ [Ev.waitR ls t timedOut] }
  if timedOut then (true, { s1 with status := STATUS_TIMEOUT }) else (false, s1)

/-- `WaitAssertion(pins)`: unbounded busy-poll, always completes. -/
def WaitAssertion (ls : List Line) (s : St) : St :=
  { s with events := s.events ++ [Ev.waitAssert ls] }

/-- `WaitRelease(pins)`: unbounded busy-poll, always completes. -/
def WaitRelease (ls : List Line) (s : St) : St :=
  { s with events := s.events ++ [Ev.waitRelease ls] }

/-- The C truthiness test `data & 1` selecting the branch of the bit
loop. -/
def lowBitSet (data : Nat) : Bool := (data &&& 1) != 0

/-- The 8-iteration loop of `SendBits`: assert Clock, half bit-setup
delay, drive Data from the low bit (`bit=1` releases, `bit=0` asserts),
the other half delay, release Clock (bit valid point), data-valid delay,
then shift the byte right. -/
def sendBitsLoop : Nat → Nat → St → St
  | 0, _, s => s
  | n + 1, data, s =>
    let s := Assert [Line.clk] s
    let s := delayMicroseconds (TIME_TS / 2) s
    let s := if lowBitSet data then Release [Line.dio] s else Assert [Line.dio] s
    let s := delayMicroseconds (TIME_TS / 2) s
    let s := Release [Line.clk] s
    let s := delayMicroseconds TIME_TV s
    sendBitsLoop n (data >>> 1) s

/-- `SendBits(data)`: send 8 bits LSB first, then release Data and
assert Clock to mark end of byte.  A `byteTx` marker records the byte
handed to the engine (callers pass 8-bit values). -/
def SendBits (data : Nat) (s : St) : St :=
  let s1 := sendBitsLoop 8 data s
  let s1 := Release [Line.dio] s1
  let s1 := Assert [Line.clk] s1
  { s1 with events := s1.events ++ [Ev.byteTx data] }

/-- `Send(uint8_t data, bool eoi)`: per-byte send handshake (iecserial.cpp
lines 194-219).  Resets status to Ok, releases Clock, waits (unbounded)
for the listener to release Data, runs the EOI dance or the non-EOI
delay, streams the bits, then waits for the frame handshake; a timeout
there sets `STATUS_FRAMMING_ERROR`. -/
def Send1 (data : Nat) (eoi : Bool) (s : St) : Bool × St :=
  let s := { s with status := STATUS_OK }
  let s := Release [Line.clk] s
  let s := WaitRelease [Line.dio] s
  let s :=
    if eoi then
      let s := (WaitAssertionOrTimeout [Line.dio] TIME_TYE s).2
      let s := (WaitReleaseOrTimeout [Line.dio] TIME_TEI s).2
      delayMicroseconds TIME_TRY s
    else
      delayMicroseconds TIME_TNE s
  let s := SendBits data s
  let r := WaitAssertionOrTimeout [Line.dio] TIME_TF s
  let s := if r.1 then { r.2 with status := STATUS_FRAMMING_ERROR } else r.2
  let s := delayMicroseconds TIME_TBB s
  (isOk s, s)

/-- The loop of `Send(const uint8_t data[], size_t length, bool eoi)`:
send each byte, flagging `eoi` only on the last one, and break on the
first failing byte. -/
def sendLoop (eoi : Bool) : List Nat → St → St
  | [], s => s
  | d :: rest, s =>
    let lasteoi := eoi && rest.isEmpty
    let r := Send1 d lasteoi s
    if r.1 then sendLoop eoi rest r.2 else r.2

/-- `Send(const uint8_t data[], size_t length, bool eoi)` (iecserial.cpp
lines 226-235).  Note: it does not reset `m_status` itself; it returns
`isOk()` after the loop. -/
def SendN (data : List Nat) (eoi : Bool) (s : St) : Bool × St :=
  let s1 := sendLoop eoi data s
  (isOk s1, s1)

/-- `Send(const char* str, bool eoi)`: computes the length and delegates
to the array form. -/
def SendStr (str : List Nat) (eoi : Bool) (s : St) : Bool × St :=
  SendN str eoi s

/-- `Command(uint8_t cmd)` (iecserial.cpp lines 76-97): reset status,
release Data, assert Attention and Clock, wait up to `TIME_TAT` for a
device to assert Data; on timeout set `STATUS_NO_DEVICE`, release all
lines and fail; otherwise send the byte, release Attention and report
`isOk()`. -/
def Command1 (cmd : Nat) (s : St) : Bool × St :=
  let s := { s with status := STATUS_OK }
  let s := Release [Line.dio] s
  let s := Assert [Line.atn] s
  let s := Assert [Line.clk] s
  let r := WaitAssertionOrTimeout [Line.dio] TIME_TAT s
  if r.1 then
    let s := { r.2 with status := STATUS_NO_DEVICE }
    let s := ReleaseAll s
    (false, s)
  else
    let s := (Send1 cmd false r.2).2
    let s := delayMicroseconds TIME_TR s
    let s := Release [Line.atn] s
    let s := delayMicroseconds TIME_TTK s
    (isOk s, s)

/-- `Command(uint8_t cmd[], size_t length)` (iecserial.cpp lines
103-123): as `Command1` but streams the byte array. -/
def CommandN (cmd : List Nat) (s : St) : Bool × St :=
  let s := { s with status := STATUS_OK }
  let s := Release [Line.dio] s
  let s := Assert [Line.atn] s
  let s := Assert [Line.clk] s
  let r := WaitAssertionOrTimeout [Line.dio] TIME_TAT s
  if r.1 then
    let s := { r.2 with status := STATUS_NO_DEVICE }
    let s := ReleaseAll s
    (false, s)
  else
    let s := (SendN cmd false r.2).2
    let s := delayMicroseconds TIME_TR s
    let s := Release [Line.atn] s
    let s := delayMicroseconds TIME_TTK s
    (isOk s, s)

/-- `Turnaround()` (iecserial.cpp lines 346-360). -/
def Turnaround (s : St) : Bool × St :=
  let s := delayMicroseconds TIME_TTK s
  let s := Assert [Line.dio] s
  let s := Release [Line.clk] s
  let s := delayMicroseconds TIME_TDC s
  let r := WaitAssertionOrTimeout [Line.clk] 1000 s
  if r.1 then
    (false, r.2)
  else
    let s := delayMicroseconds TIME_TDA r.2
    (true, s)

/-- `Talk(uint8_t pad)`. -/
def Talk1 (pad : Nat) (s : St) : Bool × St :=
  let r := Command1 (CMD_TALK ||| pad) s
  if r.1 then Turnaround r.2 else (false, r.2)

/-- `Talk(uint8_t pad, uint8_t sad)`. -/
def Talk2 (pad sad : Nat) (s : St) : Bool × St :=
  let r := CommandN [CMD_TALK ||| pad, CMD_SECONDARY ||| sad] s
  if r.1 then Turnaround r.2 else (false, r.2)

/-- `Listen(uint8_t pad)`. -/
def Listen1 (pad : Nat) (s : St) : Bool × St :=
  Command1 (CMD_LISTEN ||| pad) s

/-- `Listen(uint8_t pad, uint8_t sad)`. -/
def Listen2 (pad sad : Nat) (s : St) : Bool × St :=
  CommandN [CMD_LISTEN ||| pad, CMD_SECONDARY ||| sad] s

/-- `Untalk()`: issue `CMD_UNTALK`, then unconditionally `ReleaseAll()`
and report `isOk()`. -/
def Untalk (s : St) : Bool × St :=
  let s1 := (Command1 CMD_UNTALK s).2
  let s2 := ReleaseAll s1
  (isOk s2, s2)

/-- `Unlisten()`: issue `CMD_UNLISTEN`, then unconditionally
`ReleaseAll()` and report `isOk()`. -/
def Unlisten (s : St) : Bool × St :=
  let s1 := (Command1 CMD_UNLISTEN s).2
  let s2 := ReleaseAll s1
  (isOk s2, s2)

/-- `Get(uint8_t data[], size_t maxlength)` (iecserial.cpp lines
250-253): the body is a TODO stub that only returns `isOk()`; the buffer
and the state are untouched. -/
def GetArr (data : List Nat) (maxlength : Nat) (s : St) : Bool × List Nat × St :=
  (isOk s, data, s)

/-- `Get(char* str, size_t maxlength)` (iecserial.cpp lines 259-262):
likewise a TODO stub returning `isOk()`. -/
def GetStr (str : List Nat) (maxlength : Nat) (s : St) : Bool × List Nat × St :=
  (isOk s, str, s)

/-- `isAsserted(pins)` on a port reading `pind`: `(PIND & pins) == 0`. -/
def isAsserted (pind pins : Nat) : Bool := (pind &&& pins) == 0

/-- `isReleased(pins)` on a port reading `pind`: `(PIND & pins) != 0`. -/
def isReleased (pind pins : Nat) : Bool := (pind &&& pins) != 0

/-! ## Trace observations -/

/-- The bytes handed to the bit-transmission engine, in order. -/
def sentBytes : List Ev → List Nat
  | [] => []
  | Ev.byteTx d :: r => d :: sentBytes r
  | _ :: r => sentBytes r

/-- One step of the controller-side line state: an assert drives its
lines low (`true`), a release lets them float high (`false`). -/
def lineStep (cur : Line → Bool) : Ev → Line → Bool
  | Ev.assert ls => fun l => if l ∈ ls then true else cur l
  | Ev.release ls => fun l => if l ∈ ls then false else cur l
  | _ => cur

/-- Controller-side driven state of each line after a trace, from an
arbitrary initial state (`true` = asserted/output-low). -/
def drivenAt (init : Line → Bool) (evs : List Ev) : Line → Bool :=
  evs.foldl lineStep init

/-- The Data-line levels a listener samples from a trace: the level of
Data (as a "released" boolean, i.e. bit value) at each release edge of
Clock, starting from a given Data driven state. -/
def clkSamples : List Ev → Bool → List Bool
  | [], _ => []
  | Ev.assert ls :: r, dioA =>
    clkSamples r (if Line.dio ∈ ls then true else dioA)
  | Ev.release ls :: r, dioA =>
    let dioA2 := if Line.dio ∈ ls then false else dioA
    if Line.clk ∈ ls then (!dioA2) :: clkSamples r dioA2
    else clkSamples r dioA2
  | _ :: r, dioA => clkSamples r dioA

/-- `GetBits(data)` (iecserial.cpp lines 386-396) as a function of the
bit values sampled at the Clock-release edges: start from 0 and, for
each sample, shift right and set bit 7 when Data read released. -/
def GetBits (samples : List Bool) : Nat :=
  samples.foldl (fun data b => if b then (data >>> 1) ||| 128 else data >>> 1) 0

/-- The part of a trace after the first release of Attention. -/
def afterAtnRelease : List Ev → List Ev
  | [] => []
  | Ev.release ls :: r => if Line.atn ∈ ls then r else afterAtnRelease r
  | _ :: r => afterAtnRelease r

/-- Whether a trace contains an assertion of the Data line. -/
def hasAssertDio : List Ev → Bool
  | [] => false
  | Ev.assert ls :: r => if Line.dio ∈ ls then true else hasAssertDio r
  | _ :: r => hasAssertDio r

/-- Whether a trace shows the Turnaround maneuver being performed: after
Attention is released, the controller asserts Data (the distinctive
first line operation of `Turnaround`; nothing else after the command
window asserts Data). -/
def performsTurnaround (evs : List Ev) : Bool :=
  hasAssertDio (afterAtnRelease evs)

/-- State machine for the Attention window: phase 0 = before the window,
1 = Attention asserted, 2 = after its release.  Accepts exactly one
assert/release pair of Attention with every transmitted byte strictly
inside the window. -/
def atnWindowGo : List Ev → Nat → Bool
  | [], phase => phase == 2
  | Ev.assert ls :: r, phase =>
    if Line.atn ∈ ls then (phase == 0) && atnWindowGo r 1
    else atnWindowGo r phase
  | Ev.release ls :: r, phase =>
    if Line.atn ∈ ls then (phase == 1) && atnWindowGo r 2
    else atnWindowGo r phase
  | Ev.byteTx _ :: r, phase => (phase == 1) && atnWindowGo r phase
  | _ :: r, phase => atnWindowGo r phase

/-- A trace has exactly one Attention-asserted window and every byte
transmission happens inside it. -/
def oneAtnWindowAllTx (evs : List Ev) : Bool :=
  atnWindowGo evs 0

/-! ## Helper lemmas: the event block appended by the bit engine -/

/-- The events appended by `sendBitsLoop n data`. -/
def loopEvs : Nat → Nat → List Ev
  | 0, _ => []
  | n + 1, data =>
    Ev.assert [Line.clk] :: Ev.delayUs (TIME_TS / 2) ::
      (if lowBitSet data then Ev.release [Line.dio] else Ev.assert [Line.dio]) ::
      Ev.delayUs (TIME_TS / 2) :: Ev.release [Line.clk] :: Ev.delayUs TIME_TV ::
      loopEvs n (data >>> 1)

/-- The events appended by `SendBits data`. -/
def sbEvs (data : Nat) : List Ev :=
  loopEvs 8 data ++ [Ev.release [Line.dio], Ev.assert [Line.clk], Ev.byteTx data]

theorem sendBitsLoop_eq (n : Nat) : ∀ (data : Nat) (s : St),
    sendBitsLoop n data s = { s with events := s.events ++ loopEvs n data } := by
  induction n with
  | zero => intro data s; simp [sendBitsLoop, loopEvs]
  | succ n ih =>
    intro data s
    cases hb : lowBitSet data <;>
      simp [sendBitsLoop, loopEvs, hb, Assert, Release, delayMicroseconds, ih]

theorem SendBits_eq (data : Nat) (s : St) :
    SendBits data s = { s with events := s.events ++ sbEvs data } := by
  simp [SendBits, sendBitsLoop_eq, Assert, Release, sbEvs]

theorem sentBytes_append (a b : List Ev) :
    sentBytes (a ++ b) = sentBytes a ++ sentBytes b := by
  induction a with
  | nil => rfl
  | cons e r ih => cases e <;> simp [sentBytes, ih]

theorem sentBytes_loopEvs (n : Nat) : ∀ data, sentBytes (loopEvs n data) = [] := by
  induction n with
  | zero => intro data; rfl
  | succ n ih =>
    intro data
    cases hb : lowBitSet data <;> simp [loopEvs, hb, sentBytes, ih]

theorem sentBytes_sbEvs (data : Nat) : sentBytes (sbEvs data) = [data] := by
  rw [sbEvs, sentBytes_append, sentBytes_loopEvs]
  rfl

theorem atnWindowGo_loopEvs (n : Nat) :
    ∀ data r p, atnWindowGo (loopEvs n data ++ r) p = atnWindowGo r p := by
  induction n with
  | zero => intro data r p; rfl
  | succ n ih =>
    intro data r p
    cases hb : lowBitSet data <;> simp [loopEvs, hb, atnWindowGo, ih]

theorem atnWindowGo_sbEvs (data : Nat) (r : List Ev) :
    atnWindowGo (sbEvs data ++ r) 1 = atnWindowGo r 1 := by
  rw [sbEvs, List.append_assoc, atnWindowGo_loopEvs]
  rfl

theorem afterAtnRelease_loopEvs (n : Nat) :
    ∀ data r, afterAtnRelease (loopEvs n data ++ r) = afterAtnRelease r := by
  induction n with
  | zero => intro data r; rfl
  | succ n ih =>
    intro data r
    cases hb : lowBitSet data <;> simp [loopEvs, hb, afterAtnRelease, ih]

theorem afterAtnRelease_sbEvs (data : Nat) (r : List Ev) :
    afterAtnRelease (sbEvs data ++ r) = afterAtnRelease r := by
  rw [sbEvs, List.append_assoc, afterAtnRelease_loopEvs]
  rfl

theorem sentBytes_sbEvs_append (data : Nat) (r : List Ev) :
    sentBytes (sbEvs data ++ r) = data :: sentBytes r := by
  rw [sentBytes_append, sentBytes_sbEvs]
  rfl

/-! Per-constructor rewriting lemmas for the trace observers, so that
symbolic `sbEvs` blocks are consumed through the lemmas above instead of
being unfolded. -/

theorem sentBytes_nil : sentBytes [] = [] := rfl

theorem sentBytes_assert (ls : List Line) (r : List Ev) :
    sentBytes (Ev.assert ls :: r) = sentBytes r := rfl

theorem sentBytes_release (ls : List Line) (r : List Ev) :
    sentBytes (Ev.release ls :: r) = sentBytes r := rfl

theorem sentBytes_delayUs (t : Nat) (r : List Ev) :
    sentBytes (Ev.delayUs t :: r) = sentBytes r := rfl

theorem sentBytes_waitA (ls : List Line) (t : Nat) (b : Bool) (r : List Ev) :
    sentBytes (Ev.waitA ls t b :: r) = sentBytes r := rfl

theorem sentBytes_waitR (ls : List Line) (t : Nat) (b : Bool) (r : List Ev) :
    sentBytes (Ev.waitR ls t b :: r) = sentBytes r := rfl

theorem sentBytes_waitAssert (ls : List Line) (r : List Ev) :
    sentBytes (Ev.waitAssert ls :: r) = sentBytes r := rfl

theorem sentBytes_waitRelease (ls : List Line) (r : List Ev) :
    sentBytes (Ev.waitRelease ls :: r) = sentBytes r := rfl

theorem sentBytes_byteTx (d : Nat) (r : List Ev) :
    sentBytes (Ev.byteTx d :: r) = d :: sentBytes r := rfl

theorem atnWindowGo_nil (p : Nat) : atnWindowGo [] p = (p == 2) := rfl

theorem atnWindowGo_assert (ls : List Line) (r : List Ev) (p : Nat) :
    atnWindowGo (Ev.assert ls :: r) p =
      if Line.atn ∈ ls then (p == 0) && atnWindowGo r 1 else atnWindowGo r p := rfl

theorem atnWindowGo_release (ls : List Line) (r : List Ev) (p : Nat) :
    atnWindowGo (Ev.release ls :: r) p =
      if Line.atn ∈ ls then (p == 1) && atnWindowGo r 2 else atnWindowGo r p := rfl

theorem atnWindowGo_delayUs (t : Nat) (r : List Ev) (p : Nat) :
    atnWindowGo (Ev.delayUs t :: r) p = atnWindowGo r p := rfl

theorem atnWindowGo_waitA (ls : List Line) (t : Nat) (b : Bool) (r : List Ev) (p : Nat) :
    atnWindowGo (Ev.waitA ls t b :: r) p = atnWindowGo r p := rfl

theorem atnWindowGo_waitR (ls : List Line) (t : Nat) (b : Bool) (r : List Ev) (p : Nat) :
    atnWindowGo (Ev.waitR ls t b :: r) p = atnWindowGo r p := rfl

theorem atnWindowGo_waitAssert (ls : List Line) (r : List Ev) (p : Nat) :
    atnWindowGo (Ev.waitAssert ls :: r) p = atnWindowGo r p := rfl

theorem atnWindowGo_waitRelease (ls : List Line) (r : List Ev) (p : Nat) :
    atnWindowGo (Ev.waitRelease ls :: r) p = atnWindowGo r p := rfl

theorem atnWindowGo_byteTx (d : Nat) (r : List Ev) (p : Nat) :
    atnWindowGo (Ev.byteTx d :: r) p = ((p == 1) && atnWindowGo r p) := rfl

theorem afterAtnRelease_nil : afterAtnRelease [] = [] := rfl

theorem afterAtnRelease_assert (ls : List Line) (r : List Ev) :
    afterAtnRelease (Ev.assert ls :: r) = afterAtnRelease r := rfl

theorem afterAtnRelease_release (ls : List Line) (r : List Ev) :
    afterAtnRelease (Ev.release ls :: r) =
      if Line.atn ∈ ls then r else afterAtnRelease r := rfl

theorem afterAtnRelease_delayUs (t : Nat) (r : List Ev) :
    afterAtnRelease (Ev.delayUs t :: r) = afterAtnRelease r := rfl

theorem afterAtnRelease_waitA (ls : List Line) (t : Nat) (b : Bool) (r : List Ev) :
    afterAtnRelease (Ev.waitA ls t b :: r) = afterAtnRelease r := rfl

theorem afterAtnRelease_waitR (ls : List Line) (t : Nat) (b : Bool) (r : List Ev) :
    afterAtnRelease (Ev.waitR ls t b :: r) = afterAtnRelease r := rfl

theorem afterAtnRelease_waitAssert (ls : List Line) (r : List Ev) :
    afterAtnRelease (Ev.waitAssert ls :: r) = afterAtnRelease r := rfl

theorem afterAtnRelease_waitRelease (ls : List Line) (r : List Ev) :
    afterAtnRelease (Ev.waitRelease ls :: r) = afterAtnRelease r := rfl

theorem afterAtnRelease_byteTx (d : Nat) (r : List Ev) :
    afterAtnRelease (Ev.byteTx d :: r) = afterAtnRelease r := rfl

theorem hasAssertDio_nil : hasAssertDio [] = false := rfl

theorem hasAssertDio_assert (ls : List Line) (r : List Ev) :
    hasAssertDio (Ev.assert ls :: r) =
      if Line.dio ∈ ls then true else hasAssertDio r := rfl

theorem hasAssertDio_release (ls : List Line) (r : List Ev) :
    hasAssertDio (Ev.release ls :: r) = hasAssertDio r := rfl

theorem hasAssertDio_delayUs (t : Nat) (r : List Ev) :
    hasAssertDio (Ev.delayUs t :: r) = hasAssertDio r := rfl

theorem hasAssertDio_waitA (ls : List Line) (t : Nat) (b : Bool) (r : List Ev) :
    hasAssertDio (Ev.waitA ls t b :: r) = hasAssertDio r := rfl

theorem hasAssertDio_waitR (ls : List Line) (t : Nat) (b : Bool) (r : List Ev) :
    hasAssertDio (Ev.waitR ls t b :: r) = hasAssertDio r := rfl

theorem hasAssertDio_waitAssert (ls : List Line) (r : List Ev) :
    hasAssertDio (Ev.waitAssert ls :: r) = hasAssertDio r := rfl

theorem hasAssertDio_waitRelease (ls : List Line) (r : List Ev) :
    hasAssertDio (Ev.waitRelease ls :: r) = hasAssertDio r := rfl

theorem hasAssertDio_byteTx (d : Nat) (r : List Ev) :
    hasAssertDio (Ev.byteTx d :: r) = hasAssertDio r := rfl

/-! ## The claims -/

/-- C1: if no device asserts Data within the attention-acknowledge
window (`TIME_TAT` = 1000 µs) after Attention and Clock are asserted,
the single-byte `Command` sets Status to NoDevice, releases all five
lines, returns false, and transmits no command byte. -/
theorem claim_C1 (cmd st : Nat) (rest : List Bool) (init : Line → Bool) :
    (Command1 cmd (mkSt (true :: rest) st)).1 = false
  ∧ (Command1 cmd (mkSt (true :: rest) st)).2.status = STATUS_NO_DEVICE
  ∧ sentBytes (Command1 cmd (mkSt (true :: rest) st)).2.events = []
  ∧ (Command1 cmd (mkSt (true :: rest) st)).2.events =
      [Ev.release [Line.dio], Ev.assert [Line.atn], Ev.assert [Line.clk],
       Ev.waitA [Line.dio] TIME_TAT true, Ev.release allLines]
  ∧ TIME_TAT = 1000
  ∧ (∀ l, drivenAt init (Command1 cmd (mkSt (true :: rest) st)).2.events l = false) := by
  refine ⟨rfl, rfl, rfl, rfl, rfl, ?_⟩
  intro l
  cases l <;> rfl

set_option maxRecDepth 4000

/-- C2: for every byte value, transmitting it with `SendBits` and
sampling the Data line of the resulting trace at each Clock-release
edge, then accumulating the samples with `GetBits` (shift right, record
the sampled bit into bit 7), recovers exactly the transmitted byte. -/
theorem claim_C2 (d : Fin 256) :
    GetBits (clkSamples ((SendBits d.val (mkSt [] STATUS_OK)).events) false) = d.val := by
  revert d
  decide

/-- C3 counterexample: with a prior non-Ok status (FramingError), the
zero-length array `Send` returns false, not true as claimed. -/
theorem claim_C3_cex :
    (SendN [] true (mkSt [] STATUS_FRAMMING_ERROR)).1 = false := by
  decide

/-- C3 (amended): the zero-length array `Send` transmits no byte and
performs no line operation, but it returns `isOk()` for the status left
by the previous operation — true exactly when that prior status is Ok,
not unconditionally true. -/
theorem claim_C3 (s : St) (eoi : Bool) :
    SendN [] eoi s = (isOk s, s) := rfl

/-- C4 counterexample: the zero-length array `Send` neither resets
Status to Ok (a prior Timeout status survives) nor is independent of the
status left by the previous call (its result flips with it). -/
theorem claim_C4_cex :
    (SendN [] true (mkSt [] STATUS_TIMEOUT)).2.status ≠ STATUS_OK
  ∧ (SendN [] true (mkSt [] STATUS_TIMEOUT)).1 ≠ (SendN [] true (mkSt [] STATUS_OK)).1 := by
  decide

/-- C4 (amended): both `Command` overloads and the single-byte `Send`
set Status to Ok at their start, so their outcome is independent of the
prior status; the array `Send` resets it only through its first nested
single-byte `Send`, hence for length ≥ 1 it is likewise independent, but
with length 0 the prior status persists and determines the result. -/
theorem claim_C4 (cmd d : Nat) (cmds : List Nat) (eoi : Bool)
    (st st' : Nat) (e : List Ev) (w : List Bool) :
    Command1 cmd ⟨st, e, w⟩ = Command1 cmd ⟨st', e, w⟩
  ∧ CommandN cmds ⟨st, e, w⟩ = CommandN cmds ⟨st', e, w⟩
  ∧ Send1 d eoi ⟨st, e, w⟩ = Send1 d eoi ⟨st', e, w⟩
  ∧ SendN (d :: cmds) eoi ⟨st, e, w⟩ = SendN (d :: cmds) eoi ⟨st', e, w⟩
  ∧ SendN [] eoi ⟨st, e, w⟩ = ((st == STATUS_OK), ⟨st, e, w⟩) :=
  ⟨rfl, rfl, rfl, rfl, rfl⟩

/-- C5: in the EOI form of the single-byte `Send`, a timeout of the
EOI-acknowledge wait (`TIME_TYE`) or of the EOI-hold wait (`TIME_TEI`)
never by itself yields Status = FramingError; the final Status equals
FramingError exactly when the post-transmission frame-handshake wait
(`TIME_TF`) times out — and the byte is handed to the bit engine in
every case. -/
theorem claim_C5 (d st : Nat) (o1 o2 o3 : Bool) :
    ((Send1 d true (mkSt [o1, o2, o3] st)).2.status = STATUS_FRAMMING_ERROR ↔ o3 = true)
  ∧ sentBytes (Send1 d true (mkSt [o1, o2, o3] st)).2.events = [d] := by
  cases o1 <;> cases o2 <;> cases o3 <;>
    refine ⟨?_, ?_⟩ <;>
      simp [Send1, mkSt, WaitRelease, Release, WaitAssertionOrTimeout,
        WaitReleaseOrTimeout, delayMicroseconds, SendBits_eq, isOk,
        STATUS_OK, STATUS_TIMEOUT, STATUS_FRAMMING_ERROR,
        sentBytes_sbEvs_append, sentBytes_nil, sentBytes_assert, sentBytes_release,
        sentBytes_delayUs, sentBytes_waitA, sentBytes_waitR, sentBytes_waitAssert,
        sentBytes_waitRelease, sentBytes_byteTx]

/-- C6: for pad ≤ 30 and sad ≤ 31, `Talk(pad, sad)` transmits exactly
the two command bytes `0x40|pad` then `0x60|sad`, inside one single
Attention-asserted window, when the command-phase handshakes succeed;
and for every wait-outcome oracle the Turnaround maneuver is performed
exactly when the two-byte command phase reports success. -/
theorem claim_C6 (pad sad st : Nat) (hp : pad ≤ 30) (hs : sad ≤ 31)
    (o1 o2 o3 o4 : Bool) :
    sentBytes (Talk2 pad sad (mkSt [false, false, false, o4] st)).2.events
      = [CMD_TALK ||| pad, CMD_SECONDARY ||| sad]
  ∧ oneAtnWindowAllTx (Talk2 pad sad (mkSt [false, false, false, o4] st)).2.events = true
  ∧ performsTurnaround (Talk2 pad sad (mkSt [o1, o2, o3, o4] st)).2.events
      = (CommandN [CMD_TALK ||| pad, CMD_SECONDARY ||| sad] (mkSt [o1, o2, o3, o4] st)).1 := by
  refine ⟨?_, ?_, ?_⟩
  · cases o4 <;>
      simp [Talk2, CommandN, SendN, sendLoop, Send1, Turnaround, mkSt,
        Assert, Release, ReleaseAll, WaitRelease, WaitAssertionOrTimeout,
        WaitReleaseOrTimeout, delayMicroseconds, SendBits_eq, isOk,
        STATUS_OK, STATUS_TIMEOUT, STATUS_FRAMMING_ERROR, STATUS_NO_DEVICE,
        sentBytes_sbEvs_append, sentBytes_nil, sentBytes_assert, sentBytes_release,
        sentBytes_delayUs, sentBytes_waitA, sentBytes_waitR, sentBytes_waitAssert,
        sentBytes_waitRelease, sentBytes_byteTx]
  · cases o4 <;>
      simp [oneAtnWindowAllTx, Talk2, CommandN, SendN, sendLoop, Send1, Turnaround, mkSt,
        Assert, Release, ReleaseAll, WaitRelease, WaitAssertionOrTimeout,
        WaitReleaseOrTimeout, delayMicroseconds, SendBits_eq, isOk,
        STATUS_OK, STATUS_TIMEOUT, STATUS_FRAMMING_ERROR, STATUS_NO_DEVICE, allLines,
        atnWindowGo_sbEvs, atnWindowGo_nil, atnWindowGo_assert, atnWindowGo_release,
        atnWindowGo_delayUs, atnWindowGo_waitA, atnWindowGo_waitR,
        atnWindowGo_waitAssert, atnWindowGo_waitRelease, atnWindowGo_byteTx]
  · cases o1 <;> cases o2 <;> cases o3 <;> cases o4 <;>
      simp [performsTurnaround, Talk2, CommandN, SendN, sendLoop, Send1, Turnaround, mkSt,
        Assert, Release, ReleaseAll, WaitRelease, WaitAssertionOrTimeout,
        WaitReleaseOrTimeout, delayMicroseconds, SendBits_eq, isOk,
        STATUS_OK, STATUS_TIMEOUT, STATUS_FRAMMING_ERROR, STATUS_NO_DEVICE, allLines,
        afterAtnRelease_sbEvs, afterAtnRelease_nil, afterAtnRelease_assert,
        afterAtnRelease_release, afterAtnRelease_delayUs, afterAtnRelease_waitA,
        afterAtnRelease_waitR, afterAtnRelease_waitAssert, afterAtnRelease_waitRelease,
        afterAtnRelease_byteTx,
        hasAssertDio_nil, hasAssertDio_assert, hasAssertDio_release, hasAssertDio_delayUs,
        hasAssertDio_waitA, hasAssertDio_waitR, hasAssertDio_waitAssert,
        hasAssertDio_waitRelease, hasAssertDio_byteTx]

/-- C7: for pad ≤ 30, `Listen(pad)` transmits exactly the single
command byte `0x20 | pad` when the command phase handshakes succeed, and
never performs the Turnaround maneuver, whatever the wait outcomes. -/
theorem claim_C7 (pad st : Nat) (hp : pad ≤ 30) (o1 o2 : Bool) :
    sentBytes (Listen1 pad (mkSt [false, false] st)).2.events = [CMD_LISTEN ||| pad]
  ∧ performsTurnaround (Listen1 pad (mkSt [o1, o2] st)).2.events = false := by
  refine ⟨?_, ?_⟩
  · simp [Listen1, Command1, Send1, mkSt,
      Assert, Release, ReleaseAll, WaitRelease, WaitAssertionOrTimeout,
      WaitReleaseOrTimeout, delayMicroseconds, SendBits_eq, isOk,
      STATUS_OK, STATUS_TIMEOUT, STATUS_FRAMMING_ERROR,
      sentBytes_sbEvs_append, sentBytes_nil, sentBytes_assert, sentBytes_release,
      sentBytes_delayUs, sentBytes_waitA, sentBytes_waitR, sentBytes_waitAssert,
      sentBytes_waitRelease, sentBytes_byteTx]
  · cases o1 <;> cases o2 <;>
      simp [performsTurnaround, Listen1, Command1, Send1, mkSt,
        Assert, Release, ReleaseAll, WaitRelease, WaitAssertionOrTimeout,
        WaitReleaseOrTimeout, delayMicroseconds, SendBits_eq, isOk,
        STATUS_OK, STATUS_TIMEOUT, STATUS_FRAMMING_ERROR, STATUS_NO_DEVICE, allLines,
        afterAtnRelease_sbEvs, afterAtnRelease_nil, afterAtnRelease_assert,
        afterAtnRelease_release, afterAtnRelease_delayUs, afterAtnRelease_waitA,
        afterAtnRelease_waitR, afterAtnRelease_waitAssert, afterAtnRelease_waitRelease,
        afterAtnRelease_byteTx,
        hasAssertDio_nil, hasAssertDio_assert, hasAssertDio_release, hasAssertDio_delayUs,
        hasAssertDio_waitA, hasAssertDio_waitR, hasAssertDio_waitAssert,
        hasAssertDio_waitRelease, hasAssertDio_byteTx]

/-- C8: `Untalk` and `Unlisten` leave all five bus lines released
whatever the outcome of their internal `Command` (any oracle, any prior
status), and they return true exactly when the final Status is Ok. -/
theorem claim_C8 (st : Nat) (w : List Bool) (init : Line → Bool) :
    (∀ l, drivenAt init (Untalk (mkSt w st)).2.events l = false)
  ∧ ((Untalk (mkSt w st)).1 = true ↔ (Untalk (mkSt w st)).2.status = STATUS_OK)
  ∧ (∀ l, drivenAt init (Unlisten (mkSt w st)).2.events l = false)
  ∧ ((Unlisten (mkSt w st)).1 = true ↔ (Unlisten (mkSt w st)).2.status = STATUS_OK) := by
  refine ⟨?_, ?_, ?_, ?_⟩
  · intro l
    show drivenAt init ((Command1 CMD_UNTALK (mkSt w st)).2.events ++ [Ev.release allLines]) l
      = false
    rw [drivenAt, List.foldl_append]
    cases l <;> simp [lineStep, allLines]
  · simp [Untalk, isOk, ReleaseAll, Release, STATUS_OK]
  · intro l
    show drivenAt init ((Command1 CMD_UNLISTEN (mkSt w st)).2.events ++ [Ev.release allLines]) l
      = false
    rw [drivenAt, List.foldl_append]
    cases l <;> simp [lineStep, allLines]
  · simp [Unlisten, isOk, ReleaseAll, Release, STATUS_OK]

/-- C9: on 8-bit port readings, `isAsserted` is true iff every queried
line reads low (AND semantics), `isReleased` is true iff some queried
line reads high (OR semantics), and `isReleased` is the boolean negation
of `isAsserted`. -/
theorem claim_C9 (pind pins : Nat) (hne : pins ≠ 0)
    (hpind : pind < 256) (hpins : pins < 256) :
    (isAsserted pind pins = true ↔
      ∀ i, i < 8 → pins.testBit i = true → pind.testBit i = false)
  ∧ (isReleased pind pins = true ↔
      ∃ i, i < 8 ∧ pins.testBit i = true ∧ pind.testBit i = true)
  ∧ isReleased pind pins = !(isAsserted pind pins) := by
  have hhigh : ∀ i, 8 ≤ i → pins.testBit i = false := by
    intro i hi
    refine Nat.testBit_eq_false_of_lt (lt_of_lt_of_le hpins ?_)
    calc (256 : Nat) = 2 ^ 8 := by norm_num
      _ ≤ 2 ^ i := Nat.pow_le_pow_right (by norm_num) hi
  have key : pind &&& pins = 0 ↔
      ∀ i, i < 8 → pins.testBit i = true → pind.testBit i = false := by
    constructor
    · intro h i _ hp
      have hbit := congrArg (fun n => n.testBit i) h
      simp only [Nat.testBit_and, Nat.zero_testBit, hp, Bool.and_true] at hbit
      exact hbit
    · intro h
      apply Nat.zero_of_testBit_eq_false
      intro i
      rw [Nat.testBit_and]
      by_cases hi : i < 8
      · cases hp : pins.testBit i with
        | false => simp [hp]
        | true => simp [hp, h i hi hp]
      · simp [hhigh i (le_of_not_lt hi)]
  have hneg : isReleased pind pins = !(isAsserted pind pins) := rfl
  refine ⟨?_, ?_, hneg⟩
  · rw [isAsserted, beq_iff_eq]
    exact key
  · rw [hneg]
    constructor
    · intro h
      by_contra hc
      push_neg at hc
      have hall : ∀ i, i < 8 → pins.testBit i = true → pind.testBit i = false := by
        intro i hi hp
        cases hd : pind.testBit i with
        | false => rfl
        | true => exact absurd hd (hc i hi hp)
      have h0 : pind &&& pins = 0 := key.mpr hall
      rw [isAsserted, h0] at h
      simp at h
    · rintro ⟨i, hi, hp, hd⟩
      rw [isAsserted]
      have h0 : pind &&& pins ≠ 0 := by
        intro h0
        have hf := key.mp h0 i hi hp
        rw [hd] at hf
        exact Bool.noConfusion hf
      simp [h0]

/-- Witness for C6: instantiated at pad = 4, sad = 15, with a
successful command phase for the window conjuncts and a failing one for
the Turnaround conjunct. -/
theorem claim_C6_witness :
    (4 : Nat) ≤ 30 ∧ (15 : Nat) ≤ 31 ∧
    (sentBytes (Talk2 4 15 (mkSt [false, false, false, true] 0)).2.events
        = [CMD_TALK ||| 4, CMD_SECONDARY ||| 15]
    ∧ oneAtnWindowAllTx (Talk2 4 15 (mkSt [false, false, false, true] 0)).2.events = true
    ∧ performsTurnaround (Talk2 4 15 (mkSt [true, false, true, true] 0)).2.events
        = (CommandN [CMD_TALK ||| 4, CMD_SECONDARY ||| 15]
            (mkSt [true, false, true, true] 0)).1) :=
  ⟨by decide, by decide, claim_C6 4 15 0 (by decide) (by decide) true false true true⟩

/-- Witness for C7: instantiated at pad = 4. -/
theorem claim_C7_witness :
    (4 : Nat) ≤ 30 ∧
    (sentBytes (Listen1 4 (mkSt [false, false] 0)).2.events = [CMD_LISTEN ||| 4]
    ∧ performsTurnaround (Listen1 4 (mkSt [true, false] 0)).2.events = false) :=
  ⟨by decide, claim_C7 4 0 (by decide) true false⟩

/-- Witness for C9: instantiated at a port reading of 5 and the queried
line set 3. -/
theorem claim_C9_witness :
    (3 : Nat) ≠ 0 ∧ (5 : Nat) < 256 ∧ (3 : Nat) < 256 ∧
    ((isAsserted 5 3 = true ↔
        ∀ i, i < 8 → Nat.testBit 3 i = true → Nat.testBit 5 i = false)
    ∧ (isReleased 5 3 = true ↔
        ∃ i, i < 8 ∧ Nat.testBit 3 i = true ∧ Nat.testBit 5 i = true)
    ∧ isReleased 5 3 = !(isAsserted 5 3)) :=
  ⟨by decide, by decide, by decide, claim_C9 5 3 (by decide) (by decide) (by decide)⟩

/-- C10: both receive operations are stubs: they perform no line
operation, leave the buffer and the machine state untouched, and return
true exactly when the status left by the previous operation is Ok. -/
theorem claim_C10 (buf str : List Nat) (n m : Nat) (s : St) :
    GetArr buf n s = (isOk s, buf, s)
  ∧ GetStr str m s = (isOk s, str, s)
  ∧ ((GetArr buf n s).1 = true ↔ s.status = STATUS_OK)
  ∧ ((GetStr str m s).1 = true ↔ s.status = STATUS_OK) := by
  refine ⟨rfl, rfl, ?_, ?_⟩ <;> simp [GetArr, GetStr, isOk]

end Iec
